import Mathlib

/-!
Verification development for the voice-agent front end
(`src/voice-agent/src/components/VoiceAIAgent.jsx`, the conversational
variant that keeps a chat history and an AbortController; line numbers
below refer to that variant).

The component's orchestration logic is embedded shallowly:

* `parseRetryAfter` / `computeDelay` model the retry-delay parser
  (lines 337-345) and the `parseRetryAfter(...) || 10000` use site
  (line 402).  JavaScript regex backtracking is not needed for this
  pattern: every `\d+` is followed by a non-digit literal, so maximal
  munch coincides with the regex semantics.  Durations are rationals
  (milliseconds), since the seconds component may be fractional.
* `processAudio` (lines 347-433) is modelled as a pure interpreter over
  an environment giving the result of each network call per attempt
  (the same clip is resubmitted on retry, so results are indexed by the
  retry counter) and an abort schedule saying, per attempt, at which
  await point (if any) the run's AbortController is found aborted.  It
  returns the run's outcome plus the ordered trace of its observable
  effects (state setters, history appends, tts requests, waits).  A
  recursion budget makes the definition structural; the retry recursion
  (line 405) requires `retryCount < maxRetries`, so its depth from a
  call at `retryCount` is at most `maxRetries - retryCount`, which is
  exactly the budget the top-level entry point supplies.
* A `SessionState` layer models the refs and useState cells, and the
  handlers `startRecording` (its synchronous prefix up to the
  `getUserMedia` await), `stopRecording`, the recorder's `onstop`
  continuation, and `handleEndCall`.
-/

/-- One entry of the chat history: `{ user: transcription, ai: response }`
(line 386). -/
structure Entry where
  user : String
  ai : String
deriving DecidableEq, Repr

/-- Result of one `fetch`: either a success payload, or a non-ok response
with a status code and the detail message.  The code reads
`errorData.detail || response.statusText`; the model stores that already
composed string as `detail`. -/
inductive FetchResult (α : Type) where
  | ok (payload : α)
  | httpError (status : Nat) (detail : String)
deriving DecidableEq, Repr

/-- The three remote endpoints, as functions of the attempt index
(= the `retryCount` of the pass issuing the call, since a retried run
resubmits the same clip). -/
structure Env where
  transcribe : Nat → FetchResult String
  generate : Nat → FetchResult String
  tts : Nat → FetchResult Unit

/-- At which await point (if any) a given pass finds its AbortController
aborted.  `duringWait` means the controller is aborted while the pass is
awaiting the retry delay (line 404); per JS semantics that promise is a
plain `setTimeout` with no signal attached, so it resolves anyway. -/
inductive AbortPt where
  | atTranscribe
  | atGenerate
  | atTts
  | duringWait
  | never
deriving DecidableEq, Repr

/-- How a `processAudio` run resolves, per the spec taxonomy:
full success with audio, text-only fallback after a swallowed synthesis
failure, the AbortError branch (line 422), or a pipeline error
(transcription / empty transcript / response generation). -/
inductive Outcome where
  | speaking
  | textFallback
  | cancelled
  | pipelineError (msg : String)
deriving DecidableEq, Repr

/-- Observable effects of a run, in program order.  `abortObserved` marks
the instant an in-flight fetch rejects with AbortError, i.e. the first
point at which the run reacts to its scope being invalidated; it is not
itself a state mutation. -/
inductive Effect where
  | setStatus (s : String)
  | setTranscription (s : String)
  | appendHistory (e : Entry)
  | ttsRequest (prompt : String)
  | playAudio
  | setProcessing (b : Bool)
  | newController (attempt : Nat)
  | clearController
  | wait (ms : ℚ)
  | abortObserved
deriving DecidableEq, Repr

/-- The idle status message (lines 257, 424, 474). -/
def idleStatus : String := "Click the square button to speak your query"

/-- The literal required by the retry-delay regex (line 338). -/
def litChars : List Char := "Please try again in ".data

/-- Maximal run of leading decimal digits (the exact semantics of a
greedy `\d+` here, since each `\d+` in the pattern is followed by a
non-digit literal). -/
def takeDigits : List Char → List Char × List Char
  | [] => ([], [])
  | c :: cs =>
    if c.isDigit then
      let p := takeDigits cs
      (c :: p.1, p.2)
    else
      ([], c :: cs)

/-- Numeric value of a digit run (what `parseInt` returns on e.g. "2h"). -/
def digitsVal (ds : List Char) : Nat :=
  ds.foldl (fun a c => a * 10 + (c.toNat - 48)) 0

/-- Optional group `(\d+X)?` for a literal suffix character `X`
(`h` or `m`): digits followed by the suffix, else no capture and no
consumption. -/
def optNumSuffix (suf : Char) (cs : List Char) : Option Nat × List Char :=
  let p := takeDigits cs
  match p.1, p.2 with
  | [], _ => (none, cs)
  | _, [] => (none, cs)
  | ds, c :: rest => if c = suf then (some (digitsVal ds), rest) else (none, cs)

/-- Optional group `(\d+\.\d+s)?`: integer digits, a dot, fractional
digits, then `s`.  The capture is returned as the two digit runs; the
numeric value `parseFloat` assigns to the captured text is `secVal`
below. -/
def optSecDigits (cs : List Char) : Option (List Char × List Char) × List Char :=
  let p1 := takeDigits cs
  match p1.1 with
  | [] => (none, cs)
  | ds1 =>
    match p1.2 with
    | '.' :: r2 =>
      let p2 := takeDigits r2
      match p2.1, p2.2 with
      | [], _ => (none, cs)
      | ds2, 's' :: r4 => (some (ds1, ds2), r4)
      | _, _ => (none, cs)
    | _ => (none, cs)

/-- The value `parseFloat` gives to a captured `<int>.<frac>` seconds
text: integer part plus fraction scaled by the number of fractional
digits. -/
def secVal (p : List Char × List Char) : ℚ :=
  (digitsVal p.1 : ℚ) + (digitsVal p.2 : ℚ) / (10 : ℚ) ^ p.2.length

/-- Leftmost match of the regex: scan for the first occurrence of the
mandatory literal and return the remainder after it (all three groups
are optional, so the pattern matches exactly where the literal does). -/
def findLit : List Char → Option (List Char)
  | [] => none
  | c :: cs =>
    if litChars.isPrefixOf (c :: cs) then some ((c :: cs).drop litChars.length)
    else findLit cs

/-- `parseRetryAfter` (lines 337-345): `null` when the regex does not
match, otherwise the sum of the captured components, in milliseconds. -/
def parseRetryAfter (errorMessage : String) : Option ℚ :=
  match findLit errorMessage.data with
  | none => none
  | some rest =>
    let g1 := optNumSuffix 'h' rest
    let g2 := optNumSuffix 'm' g1.2
    let g3 := optSecDigits g2.2
    let seconds : ℚ :=
      (g1.1.getD 0 : Nat) * 3600 + (g2.1.getD 0 : Nat) * 60 + (g3.1.map secVal).getD 0
    some (seconds * 1000)

/-- The use site `parseRetryAfter(errorData.detail) || 10000` (line 402):
JavaScript `||` falls back on `null` and also on `0`, both falsy. -/
def computeDelay (msg : String) : ℚ :=
  match parseRetryAfter msg with
  | none => 10000
  | some v => if v = 0 then 10000 else v

/-- The transcript guard `!transcription || !transcription.trim()`
(line 364): true exactly when the transcript is empty or all
whitespace (i.e. when `trim` yields the empty string). -/
def blankTranscript (t : String) : Bool :=
  t.data.all fun c => c.isWhitespace

/-- The outer error-branch status (line 427): the closure-captured
`transcriptionText` value from the render, or the error message. -/
def errStatus (renderT msg : String) : String :=
  if renderT = "" then "Error processing query: " ++ msg else "You said: " ++ renderT

/-- The `finally` block of `processAudio` (lines 429-432). -/
def finallyFx : List Effect := [Effect.setProcessing false, Effect.clearController]

/-- The body of `processAudio` (lines 347-433), as an interpreter
producing the run's outcome and its ordered effect trace.

`budget` is an explicit recursion budget making the definition
structurally recursive; the retry recursion (line 405) fires only when
`retryCount < maxRetries`, so a budget of `maxRetries - retryCount`
(supplied by `processAudio` below) is never exhausted, and the
budget-exhausted branch duplicates the retries-exhausted branch.

Trace notes, in code order:
* line 348: a fresh AbortController is installed (`newController`);
* aborted fetches reject with AbortError (`abortObserved`), reaching the
  outer catch (line 422) from the transcribe/generate fetches but the
  inner catch (line 417) from the tts fetch;
* lines 367-368: transcript stored and echoed in the status;
* lines 385-390: the history entry is appended and the pending
  transcript cleared, before the tts step;
* line 404: the retry wait is a bare `setTimeout` promise that does not
  observe the abort signal, so a `duringWait` abort has no effect on the
  pass, which then recurses (line 405) and installs a new controller. -/
def processAudioGo (env : Env) (abort : Nat → AbortPt) (renderT : String)
    (maxRetries : Nat) : Nat → Nat → Outcome × List Effect
  | budget, retryCount =>
    if abort retryCount = AbortPt.atTranscribe then
      (Outcome.cancelled,
        Effect.newController retryCount :: Effect.abortObserved ::
          Effect.setStatus idleStatus :: finallyFx)
    else
      match env.transcribe retryCount with
      | FetchResult.httpError _ d =>
        (Outcome.pipelineError ("Transcription failed: " ++ d),
          Effect.newController retryCount ::
            Effect.setStatus (errStatus renderT ("Transcription failed: " ++ d)) :: finallyFx)
      | FetchResult.ok t =>
        if blankTranscript t then
          (Outcome.pipelineError "No valid transcription received",
            Effect.newController retryCount ::
              Effect.setStatus (errStatus renderT "No valid transcription received") :: finallyFx)
        else
          if abort retryCount = AbortPt.atGenerate then
            (Outcome.cancelled,
              Effect.newController retryCount :: Effect.setTranscription t ::
                Effect.setStatus ("You said: " ++ t) :: Effect.abortObserved ::
                Effect.setStatus idleStatus :: finallyFx)
          else
            match env.generate retryCount with
            | FetchResult.httpError _ d =>
              (Outcome.pipelineError ("AI response failed: " ++ d),
                Effect.newController retryCount :: Effect.setTranscription t ::
                  Effect.setStatus ("You said: " ++ t) ::
                  Effect.setStatus (errStatus renderT ("AI response failed: " ++ d)) :: finallyFx)
            | FetchResult.ok reply =>
              if abort retryCount = AbortPt.atTts then
                (Outcome.textFallback,
                  Effect.newController retryCount :: Effect.setTranscription t ::
                    Effect.setStatus ("You said: " ++ t) ::
                    Effect.appendHistory ⟨t, reply⟩ :: Effect.setTranscription "" ::
                    Effect.abortObserved ::
                    Effect.setStatus "AI response received" :: finallyFx)
              else
                match env.tts retryCount with
                | FetchResult.ok _ =>
                  (Outcome.speaking,
                    Effect.newController retryCount :: Effect.setTranscription t ::
                      Effect.setStatus ("You said: " ++ t) ::
                      Effect.appendHistory ⟨t, reply⟩ :: Effect.setTranscription "" ::
                      Effect.ttsRequest reply :: Effect.playAudio ::
                      Effect.setStatus "AI is responding..." :: finallyFx)
                | FetchResult.httpError st d =>
                  if st = 429 ∧ retryCount < maxRetries then
                    match budget with
                    | b + 1 =>
                      let r := processAudioGo env abort renderT maxRetries b (retryCount + 1)
                      (r.1,
                        Effect.newController retryCount :: Effect.setTranscription t ::
                          Effect.setStatus ("You said: " ++ t) ::
                          Effect.appendHistory ⟨t, reply⟩ :: Effect.setTranscription "" ::
                          Effect.ttsRequest reply :: Effect.wait (computeDelay d) ::
                          (r.2 ++ finallyFx))
                    | 0 =>
                      (Outcome.textFallback,
                        Effect.newController retryCount :: Effect.setTranscription t ::
                          Effect.setStatus ("You said: " ++ t) ::
                          Effect.appendHistory ⟨t, reply⟩ :: Effect.setTranscription "" ::
                          Effect.ttsRequest reply ::
                          Effect.setStatus "AI response received" :: finallyFx)
                  else
                    (Outcome.textFallback,
                      Effect.newController retryCount :: Effect.setTranscription t ::
                        Effect.setStatus ("You said: " ++ t) ::
                        Effect.appendHistory ⟨t, reply⟩ :: Effect.setTranscription "" ::
                        Effect.ttsRequest reply ::
                        Effect.setStatus "AI response received" :: finallyFx)

/-- `processAudio(audioBlob, retryCount, maxRetries)` with the budget
fixed at the maximal possible recursion depth. -/
def processAudio (env : Env) (abort : Nat → AbortPt) (renderT : String)
    (retryCount maxRetries : Nat) : Outcome × List Effect :=
  processAudioGo env abort renderT maxRetries (maxRetries - retryCount) retryCount

/-- Number of retry waits in a trace. -/
def countWaits : List Effect → Nat
  | [] => 0
  | Effect.wait _ :: l => countWaits l + 1
  | _ :: l => countWaits l

/-- Number of chat-history appends in a trace. -/
def countAppends : List Effect → Nat
  | [] => 0
  | Effect.appendHistory _ :: l => countAppends l + 1
  | _ :: l => countAppends l

/-- The part of a trace strictly after the first observed abort, if any. -/
def postMarker : List Effect → Option (List Effect)
  | [] => none
  | Effect.abortObserved :: l => some l
  | _ :: l => postMarker l

/-- The component's mutable cells: the `useState` values, the
`mediaRecorderRef` (`none` when null, otherwise the recorder's state),
the accumulated `audioChunksRef` (as the sizes of the chunks, which is
all the `onstop` handler inspects via `audioBlob.size`), the `audioRef`
source, and the `processingControllerRef` (`none` when null, otherwise
an identifier of the installed controller). -/
inductive RecState where
  | recording
  | inactive
deriving DecidableEq, Repr

structure SessionState where
  isRecording : Bool
  isPaused : Bool
  isProcessing : Bool
  status : String
  transcriptionText : String
  chatHistory : List Entry
  recorderState : Option RecState
  chunks : List Nat
  audioSrc : String
  controller : Option Nat
deriving DecidableEq, Repr

/-- How each effect of a `processAudio` trace updates the component
state.  `ttsRequest` and `wait` are pure I/O, `abortObserved` is a
marker, and `newController` / `clearController` are the assignments to
`processingControllerRef` (lines 348 and 431). -/
def applyEffect (s : SessionState) : Effect → SessionState
  | Effect.setStatus m => { s with status := m }
  | Effect.setTranscription t => { s with transcriptionText := t }
  | Effect.appendHistory e => { s with chatHistory := s.chatHistory ++ [e] }
  | Effect.ttsRequest _ => s
  | Effect.playAudio => { s with audioSrc := "blob:tts" }
  | Effect.setProcessing b => { s with isProcessing := b }
  | Effect.newController n => { s with controller := some n }
  | Effect.clearController => { s with controller := none }
  | Effect.wait _ => s
  | Effect.abortObserved => s

def applyEffects (s : SessionState) (fx : List Effect) : SessionState :=
  fx.foldl applyEffect s

/-- The synchronous prefix of `startRecording` (lines 266-282), i.e.
everything executed before the `await getUserMedia` suspension point:
stop and clear playback, abort and null the processing controller, call
`stop()` on a recorder that is still recording (which *enqueues* its
`onstop` continuation; the returned flag records that), reset the
paused/processing flags and the pending transcript, and set the
starting status.  `isRecording`, the chunk buffer and the chat history
are untouched here (the buffer is cleared only after `getUserMedia`
resolves, line 286). -/
def startRecordingSync (s : SessionState) : SessionState × Bool :=
  let stopOld := s.recorderState = some RecState.recording
  ({ s with
      audioSrc := ""
      controller := none
      recorderState := if stopOld then some RecState.inactive else s.recorderState
      isPaused := false
      isProcessing := false
      transcriptionText := ""
      status := "Starting recording..." },
    stopOld)

/-- `stopRecording` (lines 328-335): a no-op unless the recorder is
recording; otherwise stop it (enqueueing `onstop`), leave Recording,
and unconditionally enter Processing with the processing status. -/
def stopRecording (s : SessionState) : SessionState × Bool :=
  if s.recorderState = some RecState.recording then
    ({ s with
        recorderState := some RecState.inactive
        isRecording := false
        isProcessing := true
        status := "Processing your query..." },
      true)
  else (s, false)

/-- Result of running the recorder's `onstop` continuation:
the state afterwards, the size of the finalized clip, and — when the
clip was non-empty — the `processAudio` run it launched. -/
structure OnstopResult where
  state : SessionState
  blobSize : Nat
  pipeline : Option (Outcome × List Effect)

/-- The `onstop` continuation (lines 294-308): build the clip from the
accumulated chunks; an empty clip throws, and the local catch sets an
error status and leaves Processing; otherwise `processAudio` runs on
the clip (retryCount 0, maxRetries 3).  The captured `transcriptionText`
closure value is taken from the state at hand; it only influences the
wording of one error status, none of the properties proved below. -/
def runOnstop (env : Env) (abort : Nat → AbortPt) (s : SessionState) : OnstopResult :=
  let blobSize := s.chunks.sum
  if blobSize = 0 then
    ⟨{ s with status := "Error processing audio", isProcessing := false }, 0, none⟩
  else
    let r := processAudio env abort s.transcriptionText 0 3
    ⟨applyEffects s r.2, blobSize, some r⟩

/-- `handleEndCall` (lines 459-477): stop a recorder that is recording
(which enqueues its `onstop` continuation — the flag records that),
stop and clear playback, abort and null the processing controller, and
reset every piece of visible state: flags, status, pending transcript
and chat history. -/
def handleEndCall (s : SessionState) : SessionState × Bool :=
  let stopOld := s.recorderState = some RecState.recording
  ({ s with
      recorderState := if stopOld then some RecState.inactive else s.recorderState
      audioSrc := ""
      controller := none
      isPaused := false
      isProcessing := false
      isRecording := false
      status := idleStatus
      transcriptionText := ""
      chatHistory := [] },
    stopOld)

/-- An environment in which every remote call succeeds (the scenario of
spec section 8). -/
def envOk : Env :=
  ⟨fun _ => FetchResult.ok "What is the capital of France?",
   fun _ => FetchResult.ok "Paris is the capital of France.",
   fun _ => FetchResult.ok ()⟩

/-- Like `envOk` but the first tts attempt is rate-limited. -/
def env429once : Env :=
  { envOk with
    tts := fun n =>
      if n = 0 then FetchResult.httpError 429 "Rate limit: Please try again in 1m30.5s"
      else FetchResult.ok () }

/-- Like `envOk` but every tts attempt is rate-limited. -/
def env429always : Env :=
  { envOk with
    tts := fun _ => FetchResult.httpError 429 "Please try again in 2h" }

/-- No abort ever happens. -/
def abortNever : Nat → AbortPt := fun _ => AbortPt.never

/-- The first pass's controller is aborted while its transcribe fetch is
in flight. -/
def abortTr0 : Nat → AbortPt :=
  fun n => if n = 0 then AbortPt.atTranscribe else AbortPt.never

/-- The first pass's controller is aborted while its generate fetch is
in flight. -/
def abortGen0 : Nat → AbortPt :=
  fun n => if n = 0 then AbortPt.atGenerate else AbortPt.never

/-- The first pass's controller is aborted while the pass waits out the
retry delay. -/
def abortWait0 : Nat → AbortPt :=
  fun n => if n = 0 then AbortPt.duringWait else AbortPt.never

/-- A session that is currently recording and has captured one 5-byte
chunk. -/
def recordingSession : SessionState :=
  ⟨true, false, false, "Recording your query... Speak now!", "", [],
    some RecState.recording, [5], "", none⟩

/-- A session that is currently recording but captured no data. -/
def emptyRecordingSession : SessionState :=
  ⟨true, false, false, "Recording your query... Speak now!", "", [],
    some RecState.recording, [], "", none⟩

theorem countWaits_append (a b : List Effect) :
    countWaits (a ++ b) = countWaits a + countWaits b := by
  induction a with
  | nil => simp [countWaits]
  | cons e l ih =>
    cases e <;> simp [countWaits, ih]
    all_goals omega

theorem countAppends_append (a b : List Effect) :
    countAppends (a ++ b) = countAppends a + countAppends b := by
  induction a with
  | nil => simp [countAppends]
  | cons e l ih =>
    cases e <;> simp [countAppends, ih]
    all_goals omega

theorem postMarker_append_none {a : List Effect} (h : postMarker a = none) (b : List Effect) :
    postMarker (a ++ b) = postMarker b := by
  induction a with
  | nil => simp
  | cons e l ih => cases e <;> simp_all [postMarker]

theorem postMarker_append_some {a r : List Effect} (h : postMarker a = some r) (b : List Effect) :
    postMarker (a ++ b) = some (r ++ b) := by
  induction a with
  | nil => simp [postMarker] at h
  | cons e l ih => cases e <;> simp_all [postMarker]

set_option maxRecDepth 8000 in
theorem processAudioGo_waits_le (env : Env) (abort : Nat → AbortPt) (renderT : String) (mr : Nat) :
    ∀ budget rt, countWaits (processAudioGo env abort renderT mr budget rt).2 ≤ mr - rt := by
  intro budget
  induction budget with
  | zero =>
    intro rt
    rw [processAudioGo]
    simp only []
    repeat' split
    all_goals simp [countWaits, finallyFx]
  | succ b ih =>
    intro rt
    rw [processAudioGo]
    simp only []
    repeat' split
    all_goals simp [countWaits, finallyFx, countWaits_append]
    next h =>
      have := ih (rt + 1)
      omega

set_option maxRecDepth 8000 in
theorem processAudioGo_appends (env : Env) (abort : Nat → AbortPt) (renderT : String) (mr : Nat) :
    ∀ budget rt,
      (processAudioGo env abort renderT mr budget rt).1 = Outcome.speaking ∨
        (processAudioGo env abort renderT mr budget rt).1 = Outcome.textFallback →
      countAppends (processAudioGo env abort renderT mr budget rt).2 =
        countWaits (processAudioGo env abort renderT mr budget rt).2 + 1 := by
  intro budget
  induction budget with
  | zero =>
    intro rt h
    revert h
    rw [processAudioGo]
    simp only []
    repeat' split
    all_goals simp [countWaits, countAppends, finallyFx]
  | succ b ih =>
    intro rt h
    revert h
    rw [processAudioGo]
    simp only []
    repeat' split
    all_goals simp [countWaits, countAppends, finallyFx, countWaits_append, countAppends_append]
    next h =>
      intro hout
      have := ih (rt + 1) hout
      omega

set_option maxRecDepth 8000 in
theorem processAudioGo_postMarker (env : Env) (abort : Nat → AbortPt) (renderT : String) (mr : Nat) :
    ∀ budget rt r,
      postMarker (processAudioGo env abort renderT mr budget rt).2 = some r →
      countAppends r = 0 ∧ (∃ s, Effect.setStatus s ∈ r) ∧
        Effect.setProcessing false ∈ r := by
  intro budget
  induction budget with
  | zero =>
    intro rt r h
    revert h
    rw [processAudioGo]
    simp only []
    repeat' split
    all_goals intro h
    all_goals simp [postMarker, finallyFx] at h
    all_goals subst h
    all_goals simp [countAppends]
  | succ b ih =>
    intro rt r h
    revert h
    rw [processAudioGo]
    simp only []
    repeat' split
    all_goals intro h
    all_goals simp only [postMarker, finallyFx] at h
    all_goals try (simp [postMarker] at h)
    all_goals try (subst h; simp [countAppends])
    next h =>
      rcases hm : postMarker (processAudioGo env abort renderT mr b (rt + 1)).2 with _ | r2
      · rw [postMarker_append_none hm] at h
        simp [postMarker] at h
      · rw [postMarker_append_some hm] at h
        obtain rfl : r = r2 ++ [Effect.setProcessing false, Effect.clearController] := by
          simpa using h.symm
        obtain ⟨ha, ⟨s, hs⟩, hp⟩ := ih (rt + 1) r2 hm
        refine ⟨?_, ⟨s, ?_⟩, ?_⟩
        · simp [countAppends_append, ha, countAppends]
        · simp [hs]
        · exact List.mem_append_left _ hp

set_option maxRecDepth 8000 in
theorem processAudioGo_tts (env : Env) (abort : Nat → AbortPt) (renderT : String) (mr : Nat) :
    ∀ budget rt p,
      Effect.ttsRequest p ∈ (processAudioGo env abort renderT mr budget rt).2 →
      ∃ n, env.generate n = FetchResult.ok p := by
  intro budget
  induction budget with
  | zero =>
    intro rt p h
    revert h
    rw [processAudioGo]
    simp only []
    repeat' split
    all_goals intro h
    all_goals simp [finallyFx] at h
    all_goals try (subst h; exact ⟨rt, by assumption⟩)
  | succ b ih =>
    intro rt p h
    revert h
    rw [processAudioGo]
    simp only []
    repeat' split
    all_goals intro h
    all_goals simp [finallyFx] at h
    all_goals try (subst h; exact ⟨rt, by assumption⟩)
    next =>
      rcases h with h | h
      · subst h; exact ⟨rt, by assumption⟩
      · exact ih (rt + 1) p h

set_option maxRecDepth 8000 in
theorem processAudioGo_head (env : Env) (abort : Nat → AbortPt) (renderT : String) (mr : Nat)
    (budget rt : Nat) :
    ∃ l, (processAudioGo env abort renderT mr budget rt).2 = Effect.newController rt :: l := by
  rw [processAudioGo]
  simp only []
  repeat' split
  all_goals exact ⟨_, rfl⟩

set_option maxRecDepth 8000 in
theorem processAudioGo_terminal (env : Env) (abort : Nat → AbortPt) (renderT : String)
    (mr budget : Nat) (t reply d : String)
    (ha : abort mr = AbortPt.never) (ht : env.transcribe mr = FetchResult.ok t)
    (hb : blankTranscript t = false) (hg : env.generate mr = FetchResult.ok reply)
    (h429 : env.tts mr = FetchResult.httpError 429 d) :
    (processAudioGo env abort renderT mr budget mr).1 = Outcome.textFallback ∧
    countWaits (processAudioGo env abort renderT mr budget mr).2 = 0 := by
  rw [processAudioGo]
  simp [ha, ht, hb, hg, h429, countWaits, finallyFx]

/-- C1 (counterexample): the claim states that a successful run appends exactly one
ConversationEntry regardless of rate-limit retries.  In the code the
rate-limit retry (line 405) re-enters `processAudio` from the top, so
the retried pass transcribes again, generates again, and appends a
second copy of the exchange (line 385) before retrying synthesis.
Evaluated at a run whose first tts attempt is rate-limited and whose
retry succeeds: the run completes successfully (`speaking`), performed
exactly one retry wait, yet appended two ConversationEntries. -/
theorem c1_rate_limit_retry_duplicates_log :
    (processAudio env429once abortNever "" 0 3).1 = Outcome.speaking ∧
    countWaits (processAudio env429once abortNever "" 0 3).2 = 1 ∧
    countAppends (processAudio env429once abortNever "" 0 3).2 = 2 := by
  decide

/-- C2 (counterexample): the claim says a superseded run performs no
further status mutation.  Concretely, when the scope is invalidated
while the transcribe fetch is in flight, the run does resolve to
`Cancelled`, but after observing the abort it still mutates the status
text (the AbortError handler, line 424, resets it to the idle prompt)
and clears the processing flag — mutations occurring after the
superseding action began. -/
theorem c2_cancelled_run_mutates_status :
    (processAudio envOk abortTr0 "" 0 3).1 = Outcome.cancelled ∧
    postMarker (processAudio envOk abortTr0 "" 0 3).2 =
      some [Effect.setStatus idleStatus, Effect.setProcessing false, Effect.clearController] := by
  decide

/-- C2 (amended): a run whose scope invalidation is observed by its
transcribe fetch — or by its generate fetch, on a pass whose
transcription already succeeded with a usable transcript — resolves to
`Cancelled`; and after any observed abort the run never again mutates
the Conversation Log, but it does perform a further status mutation
and clears the processing flag, so the superseding caller does not own
the visible state exclusively. -/
theorem c2_cancellation_frame :
    (∀ env abort renderT rt mr, abort rt = AbortPt.atTranscribe →
        (processAudio env abort renderT rt mr).1 = Outcome.cancelled) ∧
    (∀ (env : Env) (abort : Nat → AbortPt) (renderT : String) (rt mr : Nat) (t : String),
        abort rt = AbortPt.atGenerate →
        env.transcribe rt = FetchResult.ok t → blankTranscript t = false →
        (processAudio env abort renderT rt mr).1 = Outcome.cancelled) ∧
    (∀ env abort renderT rt mr r,
        postMarker (processAudio env abort renderT rt mr).2 = some r →
        countAppends r = 0 ∧ (∃ s, Effect.setStatus s ∈ r) ∧
          Effect.setProcessing false ∈ r) := by
  refine ⟨?_, ?_, ?_⟩
  · intro env abort renderT rt mr h
    unfold processAudio
    rw [processAudioGo]
    simp [h]
  · intro env abort renderT rt mr t hw ht hb
    unfold processAudio
    rw [processAudioGo]
    simp [hw, ht, hb]
  · intro env abort renderT rt mr r h
    exact processAudioGo_postMarker env abort renderT mr _ rt r h

theorem c2_cancellation_frame_witness :
    (processAudio envOk abortTr0 "" 0 3).1 = Outcome.cancelled ∧
    (processAudio envOk abortGen0 "" 0 3).1 = Outcome.cancelled ∧
    (countAppends [Effect.setStatus idleStatus, Effect.setProcessing false,
        Effect.clearController] = 0 ∧
      (∃ s, Effect.setStatus s ∈ [Effect.setStatus idleStatus, Effect.setProcessing false,
        Effect.clearController]) ∧
      Effect.setProcessing false ∈ [Effect.setStatus idleStatus, Effect.setProcessing false,
        Effect.clearController]) :=
  ⟨c2_cancellation_frame.1 envOk abortTr0 "" 0 3 (by decide),
   c2_cancellation_frame.2.1 envOk abortGen0 "" 0 3 "What is the capital of France?"
     (by decide) rfl (by decide),
   c2_cancellation_frame.2.2 envOk abortTr0 "" 0 3 _ (by decide)⟩

/-- C3: the synthesis step is retried at most `maxRetries - retryCount`
times (so at most 3 for a fresh run with `maxRetries = 3`); and when a
rate-limit response arrives with `retryCount` already equal to
`maxRetries` (the 4th consecutive rate-limit of a fresh run), no
further retry occurs — the run surfaces the terminal synthesis failure
as the swallowed text-only fallback, with no wait in its trace. -/
theorem c3_retry_bound :
    (∀ env abort renderT rt mr,
        countWaits (processAudio env abort renderT rt mr).2 ≤ mr - rt) ∧
    (∀ env abort renderT mr t reply d,
        abort mr = AbortPt.never →
        env.transcribe mr = FetchResult.ok t →
        blankTranscript t = false →
        env.generate mr = FetchResult.ok reply →
        env.tts mr = FetchResult.httpError 429 d →
        (processAudio env abort renderT mr mr).1 = Outcome.textFallback ∧
        countWaits (processAudio env abort renderT mr mr).2 = 0) := by
  constructor
  · intro env abort renderT rt mr
    exact processAudioGo_waits_le env abort renderT mr (mr - rt) rt
  · intro env abort renderT mr t reply d ha ht hb hg h429
    exact processAudioGo_terminal env abort renderT mr (mr - mr) t reply d ha ht hb hg h429

theorem c3_retry_bound_witness :
    countWaits (processAudio env429always abortNever "" 0 3).2 ≤ 3 - 0 ∧
    (processAudio env429always abortNever "" 3 3).1 = Outcome.textFallback ∧
    countWaits (processAudio env429always abortNever "" 3 3).2 = 0 :=
  ⟨c3_retry_bound.1 env429always abortNever "" 0 3,
   c3_retry_bound.2 env429always abortNever "" 3 "What is the capital of France?"
     "Paris is the capital of France." "Please try again in 2h"
     rfl rfl (by decide) rfl rfl⟩

/-- C4: the Retry Policy's delay computation meets the spec's test
vectors, and whenever the regex does not match (or the parsed duration
is zero, which JavaScript `||` also treats as falsy) the default
10000 ms is returned. -/
theorem c4_computeDelay_vectors :
    computeDelay "Please try again in 1m30.5s" = 90500 ∧
    computeDelay "no duration here" = 10000 ∧
    computeDelay "Please try again in 2h" = 7200000 ∧
    ∀ s, parseRetryAfter s = none ∨ parseRetryAfter s = some 0 → computeDelay s = 10000 := by
  refine ⟨?_, ?_, ?_, ?_⟩
  · have h0 : findLit "Please try again in 1m30.5s".data =
        some ['1', 'm', '3', '0', '.', '5', 's'] := by decide
    have h1 : optNumSuffix 'h' ['1', 'm', '3', '0', '.', '5', 's'] =
        (none, ['1', 'm', '3', '0', '.', '5', 's']) := by decide
    have h2 : optNumSuffix 'm' ['1', 'm', '3', '0', '.', '5', 's'] =
        (some 1, ['3', '0', '.', '5', 's']) := by decide
    have h3 : optSecDigits ['3', '0', '.', '5', 's'] = (some (['3', '0'], ['5']), []) := by decide
    have h4 : digitsVal ['3', '0'] = 30 := by decide
    have h5 : digitsVal ['5'] = 5 := by decide
    simp only [computeDelay, parseRetryAfter, h0, h1, h2, h3, Option.getD_some, Option.getD_none,
      Option.map_some]
    norm_num [secVal, h4, h5]
  · have h : findLit "no duration here".data = none := by decide
    simp only [computeDelay, parseRetryAfter, h]
  · have h0 : findLit "Please try again in 2h".data = some ['2', 'h'] := by decide
    have h1 : optNumSuffix 'h' ['2', 'h'] = (some 2, []) := by decide
    have h2 : optNumSuffix 'm' [] = (none, []) := by decide
    have h3 : optSecDigits [] = (none, []) := by decide
    simp only [computeDelay, parseRetryAfter, h0, h1, h2, h3, Option.getD_some, Option.getD_none,
      Option.map_none]
    norm_num
  · intro s h
    rcases h with h | h <;> simp [computeDelay, h]

theorem c4_computeDelay_vectors_witness : computeDelay "no duration here" = 10000 :=
  c4_computeDelay_vectors.2.2.2 "no duration here" (Or.inl (by decide))

/-- C5 (counterexample): the claim says an invalidation during the
retry wait cuts the wait short and the run resolves to `Cancelled`.
Concretely, with the scope invalidated during the first pass's retry
wait, the run still waits (one wait effect), still recurses (a fresh
controller for attempt 1 is installed), and resolves to `speaking`,
not `Cancelled`. -/
theorem c5_wait_ignores_invalidation_concrete :
    (processAudio env429once abortWait0 "" 0 3).1 = Outcome.speaking ∧
    countWaits (processAudio env429once abortWait0 "" 0 3).2 = 1 ∧
    Effect.newController 1 ∈ (processAudio env429once abortWait0 "" 0 3).2 := by
  decide

/-- C5 (amended): the retry wait is a bare `setTimeout` promise with no
abort signal attached, so it does not honor the Cancellation Scope: if
the scope is invalidated while a rate-limited pass waits out its
delay, the pass still completes the wait and still issues the retry,
recursing with `retryCount + 1` under a freshly installed controller. -/
theorem c5_retry_wait_not_cancellable (env : Env) (abort : Nat → AbortPt) (renderT : String)
    (rt mr : Nat) {t reply d : String}
    (hw : abort rt = AbortPt.duringWait)
    (ht : env.transcribe rt = FetchResult.ok t) (hb : blankTranscript t = false)
    (hg : env.generate rt = FetchResult.ok reply)
    (h429 : env.tts rt = FetchResult.httpError 429 d)
    (hlt : rt < mr) :
    1 ≤ countWaits (processAudio env abort renderT rt mr).2 ∧
    Effect.newController (rt + 1) ∈ (processAudio env abort renderT rt mr).2 := by
  obtain ⟨b, hb2⟩ : ∃ b, mr - rt = b + 1 := ⟨mr - rt - 1, by omega⟩
  unfold processAudio
  rw [hb2, processAudioGo]
  simp only []
  obtain ⟨l, hl⟩ := processAudioGo_head env abort renderT mr b (rt + 1)
  simp [hw, ht, hb, hg, h429, hlt, countWaits, countWaits_append, hl]

theorem c5_retry_wait_not_cancellable_witness :
    1 ≤ countWaits (processAudio env429once abortWait0 "" 0 3).2 ∧
    Effect.newController (0 + 1) ∈ (processAudio env429once abortWait0 "" 0 3).2 :=
  c5_retry_wait_not_cancellable env429once abortWait0 "" 0 3
    (by decide) rfl (by decide) rfl rfl (by decide)

/-- C6 (counterexample): the claim states that `start()` while already recording
discards the previous recording without finalizing it and without
starting a pipeline run from it.  In the code, `startRecording` calls
`stop()` on the live recorder (line 277), which fires that recorder's
`onstop` continuation; with the captured chunks still in the shared
buffer (the buffer is cleared only after the `getUserMedia` await
resolves, line 286, while the stop event is already queued), the
continuation finalizes the discarded recording into a clip and starts
`processAudio` on it — here producing a blob of size 5, a pipeline
invocation, and a chat-history entry from the discarded clip. -/
theorem c6_interrupt_finalizes_discarded_clip :
    (startRecordingSync recordingSession).2 = true ∧
    (runOnstop envOk abortNever (startRecordingSync recordingSession).1).blobSize = 5 ∧
    (runOnstop envOk abortNever (startRecordingSync recordingSession).1).pipeline.isSome = true ∧
    (runOnstop envOk abortNever (startRecordingSync recordingSession).1).state.chatHistory =
      [⟨"What is the capital of France?", "Paris is the capital of France."⟩] := by
  decide

/-- C7 (counterexample): the claim says the Processing state is never
entered when a recording captured zero data.  In the code,
`stopRecording` sets `isProcessing` and the processing status
unconditionally (lines 332-333), before the `onstop` handler can
detect the empty capture — so a session that recorded no chunks is in
Processing immediately after `stopRecording`. -/
theorem c7_processing_entered_on_empty_capture :
    (stopRecording emptyRecordingSession).1.isProcessing = true ∧
    (stopRecording emptyRecordingSession).1.status = "Processing your query..." := by
  decide

/-- C7 (amended): stopping a recording that captured zero audio data
does transition the session to Idle with an error status and never
invokes the Request Pipeline for that clip — but the Processing state
is transiently entered first, because `stopRecording` unconditionally
sets the processing flag and status before the empty capture is
detected in the `onstop` handler. -/
theorem c7_empty_capture_flow (s : SessionState) (env : Env) (abort : Nat → AbortPt)
    (hrec : s.recorderState = some RecState.recording) (hch : s.chunks.sum = 0) :
    (stopRecording s).1.isProcessing = true ∧
    (stopRecording s).1.status = "Processing your query..." ∧
    (runOnstop env abort (stopRecording s).1).pipeline = none ∧
    (runOnstop env abort (stopRecording s).1).state.isRecording = false ∧
    (runOnstop env abort (stopRecording s).1).state.isProcessing = false ∧
    (runOnstop env abort (stopRecording s).1).state.status = "Error processing audio" := by
  simp [stopRecording, runOnstop, hrec, hch]

theorem c7_empty_capture_flow_witness :
    (stopRecording emptyRecordingSession).1.isProcessing = true ∧
    (stopRecording emptyRecordingSession).1.status = "Processing your query..." ∧
    (runOnstop envOk abortNever (stopRecording emptyRecordingSession).1).pipeline = none ∧
    (runOnstop envOk abortNever (stopRecording emptyRecordingSession).1).state.isRecording
      = false ∧
    (runOnstop envOk abortNever (stopRecording emptyRecordingSession).1).state.isProcessing
      = false ∧
    (runOnstop envOk abortNever (stopRecording emptyRecordingSession).1).state.status
      = "Error processing audio" :=
  c7_empty_capture_flow emptyRecordingSession envOk abortNever (by decide) (by decide)

/-- C8: `handleEndCall`, from any session state, returns the session to
Idle (all three flags cleared), stops an active recorder, stops and
clears playback, aborts and clears the processing controller, resets
the status, clears the pending transcript, and clears the Conversation
Log. -/
theorem c8_handleEndCall_resets_session (s : SessionState) :
    (handleEndCall s).1.isRecording = false ∧
    (handleEndCall s).1.isProcessing = false ∧
    (handleEndCall s).1.isPaused = false ∧
    (handleEndCall s).1.status = idleStatus ∧
    (handleEndCall s).1.transcriptionText = "" ∧
    (handleEndCall s).1.chatHistory = [] ∧
    (handleEndCall s).1.audioSrc = "" ∧
    (handleEndCall s).1.controller = none ∧
    (handleEndCall s).1.recorderState ≠ some RecState.recording := by
  by_cases h : s.recorderState = some RecState.recording <;> simp [handleEndCall, h]

/-- C9: every request the pipeline sends to the tts endpoint carries,
verbatim, a full reply returned by the response-generation step — not a
pre-truncated prefix of it (the conversational variant sends `response`
unchanged, line 396; only the packed historical variant truncates to
200 characters). -/
theorem c9_tts_carries_full_reply (env : Env) (abort : Nat → AbortPt) (renderT : String)
    (rt mr : Nat) (p : String)
    (h : Effect.ttsRequest p ∈ (processAudio env abort renderT rt mr).2) :
    ∃ n, env.generate n = FetchResult.ok p :=
  processAudioGo_tts env abort renderT mr (mr - rt) rt p h

theorem c9_tts_carries_full_reply_witness :
    ∃ n, envOk.generate n = FetchResult.ok "Paris is the capital of France." :=
  c9_tts_carries_full_reply envOk abortNever "" 0 3 "Paris is the capital of France." (by decide)

/-- C10: if `handleEndCall` runs while the recorder is recording and a
non-empty capture exists, the recorder is stopped (its `onstop`
continuation is enqueued) and the controller is cleared; when that
continuation later runs, it still invokes `processAudio` on the
finalized clip, whose first action is installing a fresh
AbortController that the end-of-interaction never aborted — so a new
processing attempt begins after end-of-interaction instead of the
session staying quiescent in Idle. -/
theorem c10_endcall_onstop_restarts_processing (s : SessionState) (env : Env)
    (abort : Nat → AbortPt)
    (hrec : s.recorderState = some RecState.recording) (hch : s.chunks.sum ≠ 0) :
    (handleEndCall s).2 = true ∧
    (handleEndCall s).1.controller = none ∧
    ∃ out fx, (runOnstop env abort (handleEndCall s).1).pipeline = some (out, fx) ∧
      ∃ l, fx = Effect.newController 0 :: l := by
  refine ⟨by simp [handleEndCall, hrec], by simp [handleEndCall], ?_⟩
  obtain ⟨l, hl⟩ := processAudioGo_head env abort "" 3 3 0
  refine ⟨(processAudio env abort "" 0 3).1, (processAudio env abort "" 0 3).2, ?_, l, ?_⟩
  · simp [runOnstop, handleEndCall, hch]
  · exact hl

theorem c10_endcall_onstop_restarts_processing_witness :
    (handleEndCall recordingSession).2 = true ∧
    (handleEndCall recordingSession).1.controller = none ∧
    ∃ out fx,
      (runOnstop envOk abortNever (handleEndCall recordingSession).1).pipeline = some (out, fx) ∧
      ∃ l, fx = Effect.newController 0 :: l :=
  c10_endcall_onstop_restarts_processing recordingSession envOk abortNever (by decide) (by decide)

/-- C1 (amended): a run that completes successfully (with audio or as
the text-only fallback) appends exactly one ConversationEntry per
pipeline pass: one more than the number of rate-limit retry waits it
performed.  In particular a successful run with no retry appends
exactly one entry — but each rate-limit retry re-enters the pipeline
from the top and appends another copy of the exchange, since the
append (line 385) sits before the synthesis step on every pass. -/
theorem c1_appends_one_per_pass (env : Env) (abort : Nat → AbortPt) (renderT : String)
    (rt mr : Nat)
    (h : (processAudio env abort renderT rt mr).1 = Outcome.speaking ∨
      (processAudio env abort renderT rt mr).1 = Outcome.textFallback) :
    countAppends (processAudio env abort renderT rt mr).2 =
      countWaits (processAudio env abort renderT rt mr).2 + 1 :=
  processAudioGo_appends env abort renderT mr (mr - rt) rt h

theorem c1_appends_one_per_pass_witness :
    countAppends (processAudio envOk abortNever "" 0 3).2 =
      countWaits (processAudio envOk abortNever "" 0 3).2 + 1 :=
  c1_appends_one_per_pass envOk abortNever "" 0 3 (Or.inl (by decide))

/-- C6 (amended): calling `start()` while a recording is in progress
stops the old recorder, whose `onstop` continuation then finalizes the
discarded recording into a clip (of the accumulated chunk size, the
chunk buffer being cleared only after the `getUserMedia` await) and,
whenever that capture is non-empty, starts a Request Pipeline run from
the discarded clip. -/
theorem c6_interrupt_processes_discarded (s : SessionState) (env : Env) (abort : Nat → AbortPt)
    (hrec : s.recorderState = some RecState.recording) (hch : s.chunks.sum ≠ 0) :
    (startRecordingSync s).2 = true ∧
    (runOnstop env abort (startRecordingSync s).1).blobSize = s.chunks.sum ∧
    (runOnstop env abort (startRecordingSync s).1).pipeline.isSome = true := by
  refine ⟨by simp [startRecordingSync, hrec], ?_, ?_⟩ <;>
    simp [startRecordingSync, runOnstop, hch]

theorem c6_interrupt_processes_discarded_witness :
    (startRecordingSync recordingSession).2 = true ∧
    (runOnstop envOk abortNever (startRecordingSync recordingSession).1).blobSize =
      recordingSession.chunks.sum ∧
    (runOnstop envOk abortNever (startRecordingSync recordingSession).1).pipeline.isSome
      = true :=
  c6_interrupt_processes_discarded recordingSession envOk abortNever (by decide) (by decide)
